import Mathlib

/-!
Verification of the CoCom savings calculator core (cocom-calc).

Shallow embedding of the calculator's data model and operations:
JavaScript numbers are modelled as rationals (ℚ); the few places where
non-finite values matter (ROI = Infinity, NaN from a failed parse) use an
explicit sum type `JsVal`.  TypeScript optional fields become `Option`
fields.  JSON documents are modelled as finite partial maps over the fixed
key universe the program reads and writes.
-/

namespace CocomCalc

/-- A JavaScript number that may be non-finite.  Only the values the
calculator can actually produce are modelled: a finite rational,
positive Infinity (ROI with zero one-time cost), and NaN (failed parse). -/
inductive JsVal where
  | num (q : ℚ)
  | inf
  | nan
deriving DecidableEq, Repr

/-- JavaScript logical-or with 0: the expression n || 0 maps the falsy
number 0 to 0 (identity on rationals) and is used in the source as a
guard against undefined/NaN. -/
def jsOrZero (q : ℚ) : ℚ := if q = 0 then 0 else q

theorem jsOrZero_eq (q : ℚ) : jsOrZero q = q := by
  unfold jsOrZero; split <;> simp_all

/-- JavaScript Math.max: NaN propagates, Infinity dominates. -/
def jsMax (a b : JsVal) : JsVal :=
  match a, b with
  | JsVal.nan, _ => JsVal.nan
  | _, JsVal.nan => JsVal.nan
  | JsVal.inf, _ => JsVal.inf
  | _, JsVal.inf => JsVal.inf
  | JsVal.num x, JsVal.num y => JsVal.num (max x y)

/-- Pricing mode of a category (source: type CategoryInputs, field mode). -/
inductive Mode where
  | flat
  | perUnit
deriving DecidableEq, Repr

/-- ISP agreement type (source: ispMode, "current" | "new"). -/
inductive IspMode where
  | current
  | new
deriving DecidableEq, Repr

/-- One category's inputs (source: type CategoryInputs).  The four
TypeScript-optional fields are modelled with Option. -/
structure CategoryInputs where
  mode : Mode
  units : ℚ
  currentMonthly : ℚ
  proposedMonthly : ℚ
  oneTimeCost : ℚ
  termMonths : ℚ
  enabled : Bool
  ispMode : Option IspMode
  resellPrice : Option ℚ
  doorFeePerUnit : Option ℚ
  bulkAgreement : Option Bool
deriving DecidableEq, Repr

/-- The four category keys (source: type CategoryKey). -/
inductive CategoryKey where
  | isp
  | voip
  | biznet
  | mobile
deriving DecidableEq, Repr

/-- Result of computeMonthlyTotals. -/
structure MonthlyTotals where
  current : ℚ
  proposed : ℚ
  savings : ℚ
deriving DecidableEq, Repr

/-- Source: function computeMonthlyTotals (part_002 lines 176-180). -/
def computeMonthlyTotals (i : CategoryInputs) : MonthlyTotals :=
  let curr := if i.mode = Mode.flat then i.currentMonthly else i.units * i.currentMonthly
  let prop := if i.mode = Mode.flat then i.proposedMonthly else i.units * i.proposedMonthly
  { current := curr, proposed := prop, savings := max 0 (curr - prop) }

/-- Derived financial metrics (source: type KPIs).  roi is a JsVal since
the source produces Infinity when oneTimeCost = 0 and annual > 0.
doorBenefit is optional in the TS type but computeKPIs always sets it. -/
structure KPIs where
  current : ℚ
  proposed : ℚ
  monthlySavings : ℚ
  annualSavings : ℚ
  lifetimeSavings : ℚ
  roi : JsVal
  paybackMonths : ℚ
  reduction : ℚ
  doorBenefit : ℚ
deriving DecidableEq, Repr

/-- Source: function computeKPIs (part_002 lines 182-211).  The door
benefit condition mirrors the JS truthiness test
i.ispMode === "new" && i.doorFeePerUnit && i.units
(an absent or zero doorFeePerUnit and zero units are falsy). -/
def computeKPIs (i : CategoryInputs) : KPIs :=
  let t := computeMonthlyTotals i
  let doorBenefit :=
    if i.ispMode = some IspMode.new ∧ i.doorFeePerUnit.getD 0 ≠ 0 ∧ i.units ≠ 0 then
      i.doorFeePerUnit.getD 0 * i.units
    else 0
  let annual := t.savings * 12 + doorBenefit
  let lifetime := if 0 < i.termMonths then t.savings * i.termMonths else 0
  let roi :=
    if 0 < i.oneTimeCost then
      JsVal.num ((annual - i.oneTimeCost) / max 1 i.oneTimeCost)
    else if 0 < annual then JsVal.inf
    else JsVal.num 0
  let paybackMonths :=
    if 0 < i.oneTimeCost ∧ 0 < t.savings then i.oneTimeCost / t.savings else 0
  let reduction := if 0 < t.current then (t.current - t.proposed) / t.current else 0
  { current := t.current
    proposed := t.proposed
    monthlySavings := t.savings
    annualSavings := annual
    lifetimeSavings := lifetime
    roi := roi
    paybackMonths := paybackMonths
    reduction := reduction
    doorBenefit := doorBenefit }

/-- Source: function normalizeForComputation (part_002 lines 213-231). -/
def normalizeForComputation (k : CategoryKey) (i : CategoryInputs) : CategoryInputs :=
  match k with
  | CategoryKey.voip =>
      let used : Bool :=
        match i.mode with
        | Mode.flat => decide (0 < i.currentMonthly)
        | Mode.perUnit => decide (0 < i.units) && decide (0 < i.currentMonthly)
      { i with proposedMonthly := if used then 30 else 0 }
  | CategoryKey.biznet =>
      { i with mode := Mode.flat, proposedMonthly := if i.bulkAgreement.getD false then 0 else 120 }
  | CategoryKey.isp =>
      if i.ispMode = some IspMode.new then
        { i with mode := Mode.perUnit, currentMonthly := i.resellPrice.getD 65,
                 proposedMonthly := 32, oneTimeCost := 0 }
      else
        { i with mode := Mode.perUnit, proposedMonthly := 32, oneTimeCost := 5000 }
  | CategoryKey.mobile => i

/-- The full portfolio state: one CategoryInputs per category key. -/
structure State where
  isp : CategoryInputs
  voip : CategoryInputs
  biznet : CategoryInputs
  mobile : CategoryInputs
deriving DecidableEq, Repr

def State.get (st : State) : CategoryKey → CategoryInputs
  | CategoryKey.isp => st.isp
  | CategoryKey.voip => st.voip
  | CategoryKey.biznet => st.biznet
  | CategoryKey.mobile => st.mobile

/-- Object.keys insertion order of the state record. -/
def allKeys : List CategoryKey :=
  [CategoryKey.isp, CategoryKey.voip, CategoryKey.biznet, CategoryKey.mobile]

/-- The chart/totals scope toggle (source: scope state, "all" | "selected"). -/
inductive Scope where
  | all
  | selected
deriving DecidableEq, Repr

/-- The filtered key set used by the aggregation passes (source: the
keys computation inside both the totals and the coCom useMemo blocks:
filter by enabled, then by scope = "all" or key = active). -/
def scopedKeys (st : State) (scope : Scope) (active : CategoryKey) : List CategoryKey :=
  (allKeys.filter (fun k => (st.get k).enabled)).filter
    (fun k =>
      match scope with
      | Scope.all => true
      | Scope.selected => decide (k = active))

/-- Aggregated portfolio totals (source: the totals useMemo, part_002
lines 773-793). -/
structure Totals where
  current : ℚ
  proposed : ℚ
  monthlySavings : ℚ
  annualSavings : ℚ
  lifetimeSavings : ℚ
  oneTime : ℚ
deriving DecidableEq, Repr

/-- Source: the totals useMemo.  The forEach accumulation over the
filtered keys is rendered as a map-and-sum. -/
def totals (st : State) (scope : Scope) (active : CategoryKey) : Totals :=
  let keys := scopedKeys st scope active
  let kpis := keys.map (fun k => computeKPIs (normalizeForComputation k (st.get k)))
  { current := (kpis.map KPIs.current).sum
    proposed := (kpis.map KPIs.proposed).sum
    monthlySavings := (kpis.map KPIs.monthlySavings).sum
    annualSavings := (kpis.map KPIs.annualSavings).sum
    lifetimeSavings := (kpis.map KPIs.lifetimeSavings).sum
    oneTime := (keys.map (fun k => jsOrZero (st.get k).oneTimeCost)).sum }

/-- Source: const feeRate = 0.3. -/
def feeRate : ℚ := 3 / 10

/-- Per-category contribution to the fee base (source: the coCom useMemo
body, Math.max(0, kpi.annualSavings - (kpi.doorBenefit || 0))). -/
def feeBaseTerm (kpi : KPIs) : ℚ :=
  max 0 (kpi.annualSavings - jsOrZero kpi.doorBenefit)

/-- Result of the CoCom fee/net pass. -/
structure CoCom where
  baseAnnual : ℚ
  bulkFee : ℚ
  fee : ℚ
  net : ℚ
deriving DecidableEq, Repr

/-- Source: the coCom useMemo (part_002 lines 813-826).  Note that its
keys computation repeats the enabled + scope filter of the totals pass. -/
def coCom (st : State) (scope : Scope) (active : CategoryKey) : CoCom :=
  let keys := scopedKeys st scope active
  let baseAnnual :=
    (keys.map (fun k => feeBaseTerm (computeKPIs (normalizeForComputation k (st.get k))))).sum
  let bulkFee : ℚ := if st.isp.enabled then 5000 else 0
  let fee := feeRate * baseAnnual + bulkFee
  let net := max 0 ((totals st scope active).annualSavings - fee)
  { baseAnnual := baseAnnual, bulkFee := bulkFee, fee := fee, net := net }

/-- Source: const ZERO_DEFAULTS (part_002 lines 132-173). -/
def ZERO_DEFAULTS : CategoryKey → CategoryInputs
  | CategoryKey.isp =>
      { mode := Mode.perUnit, units := 0, currentMonthly := 0, proposedMonthly := 32,
        oneTimeCost := 5000, termMonths := 0, enabled := true,
        ispMode := some IspMode.current, resellPrice := some 65,
        doorFeePerUnit := some 200, bulkAgreement := none }
  | CategoryKey.voip =>
      { mode := Mode.flat, units := 0, currentMonthly := 0, proposedMonthly := 30,
        oneTimeCost := 0, termMonths := 0, enabled := true,
        ispMode := none, resellPrice := none, doorFeePerUnit := none, bulkAgreement := none }
  | CategoryKey.biznet =>
      { mode := Mode.flat, units := 0, currentMonthly := 0, proposedMonthly := 120,
        oneTimeCost := 0, termMonths := 0, enabled := true,
        ispMode := none, resellPrice := none, doorFeePerUnit := none,
        bulkAgreement := some false }
  | CategoryKey.mobile =>
      { mode := Mode.perUnit, units := 0, currentMonthly := 0, proposedMonthly := 0,
        oneTimeCost := 0, termMonths := 0, enabled := true,
        ispMode := none, resellPrice := none, doorFeePerUnit := none, bulkAgreement := none }

/-- Source: const DEMO_DEFAULTS (part_002 lines 89-130). -/
def DEMO_DEFAULTS : CategoryKey → CategoryInputs
  | CategoryKey.isp =>
      { mode := Mode.perUnit, units := 120, currentMonthly := 55, proposedMonthly := 32,
        oneTimeCost := 5000, termMonths := 0, enabled := true,
        ispMode := some IspMode.current, resellPrice := some 65,
        doorFeePerUnit := some 200, bulkAgreement := none }
  | CategoryKey.voip =>
      { mode := Mode.flat, units := 10, currentMonthly := 600, proposedMonthly := 30,
        oneTimeCost := 0, termMonths := 0, enabled := true,
        ispMode := none, resellPrice := none, doorFeePerUnit := none, bulkAgreement := none }
  | CategoryKey.biznet =>
      { mode := Mode.flat, units := 1, currentMonthly := 350, proposedMonthly := 120,
        oneTimeCost := 0, termMonths := 0, enabled := true,
        ispMode := none, resellPrice := none, doorFeePerUnit := none,
        bulkAgreement := some false }
  | CategoryKey.mobile =>
      { mode := Mode.perUnit, units := 40, currentMonthly := 45, proposedMonthly := 28,
        oneTimeCost := 0, termMonths := 0, enabled := true,
        ispMode := none, resellPrice := none, doorFeePerUnit := none, bulkAgreement := none }

def zeroState : State :=
  { isp := ZERO_DEFAULTS CategoryKey.isp, voip := ZERO_DEFAULTS CategoryKey.voip,
    biznet := ZERO_DEFAULTS CategoryKey.biznet, mobile := ZERO_DEFAULTS CategoryKey.mobile }

def demoState : State :=
  { isp := DEMO_DEFAULTS CategoryKey.isp, voip := DEMO_DEFAULTS CategoryKey.voip,
    biznet := DEMO_DEFAULTS CategoryKey.biznet, mobile := DEMO_DEFAULTS CategoryKey.mobile }

/-! ### Percentage formatting (source: const pct, part_002 line 22) -/

/-- Number.prototype.toFixed(1) on a non-negative rational: round half up
to one decimal and print digits around the decimal point. -/
def toFixed1 (q : ℚ) : String :=
  let m : ℤ := Int.floor (q * 10 + 1 / 2)
  toString (m / 10) ++ "." ++ toString (m % 10)

/-- Source: const pct = (n) => (Math.max(0, Math.min(1, n || 0)) * 100).toFixed(1) + "%". -/
def pct (n : ℚ) : String :=
  toFixed1 (max 0 (min 1 (jsOrZero n)) * 100) ++ "%"

/-! ### Numeric input handlers (source: NumberField in part_002 and in
CostSavingsCalculator.tsx).  parseFloat is modelled on its decimal core:
an optional sign followed by digits with an optional fractional part;
anything else (no leading numeric prefix) yields NaN. -/

def digitsVal (cs : List Char) : ℕ :=
  cs.foldl (fun acc c => acc * 10 + (c.toNat - 48)) 0

def fracVal (cs : List Char) : ℚ :=
  cs.foldr (fun c acc => (((c.toNat - 48 : ℕ) : ℚ) + acc) / 10) 0

/-- Decimal core of parseFloat: none on parse failure. -/
def parseCore (cs : List Char) : Option ℚ :=
  let sign : ℚ × List Char :=
    match cs with
    | '-' :: r => (-1, r)
    | '+' :: r => (1, r)
    | _ => (1, cs)
  let ip := sign.2.takeWhile Char.isDigit
  let rest := sign.2.drop ip.length
  let fp :=
    match rest with
    | '.' :: r => r.takeWhile Char.isDigit
    | _ => []
  if ip.isEmpty && fp.isEmpty then none
  else some (sign.1 * ((digitsVal ip : ℚ) + fracVal fp))

/-- JavaScript parseFloat, returning NaN on failure. -/
def jsParseFloat (s : String) : JsVal :=
  match parseCore s.data with
  | some q => JsVal.num q
  | none => JsVal.nan

/-- Entry handler of NumberField in part_002 (lines 286-288):
onChange(Math.max(0, parseFloat(e.currentTarget.value || "0"))). -/
def numberFieldOnChange (s : String) : JsVal :=
  jsMax (JsVal.num 0) (jsParseFloat (if s = "" then "0" else s))

/-- Entry handler of NumberField in src/components/CostSavingsCalculator.tsx
(line 121): onChange(parseFloat(e.target.value || "0")) — no clamp. -/
def numberFieldOnChangeTsx (s : String) : JsVal :=
  jsParseFloat (if s = "" then "0" else s)

/-! ### JSON snapshot model and the load path (source: the useState
initializer of CostSavingsCalculator, part_002 lines 660-683, and
toJSON in part_001 lines 323-329).

JSON objects are modelled as finite partial maps over the fixed key
universe the program reads and writes: the top level of a snapshot
document uses the four category keys plus the export wrapper keys
"inputs" and "totals"; a category object uses the eleven CategoryInputs
field names. -/

/-- A primitive JSON value as stored in a category record. -/
inductive JPrim where
  | pnum (q : ℚ)
  | pstr (s : String)
  | pbool (b : Bool)
deriving DecidableEq, Repr

/-- Field names of a serialized CategoryInputs record. -/
inductive FieldKey where
  | fmode
  | funits
  | fcurrentMonthly
  | fproposedMonthly
  | foneTimeCost
  | ftermMonths
  | fenabled
  | fispMode
  | fresellPrice
  | fdoorFeePerUnit
  | fbulkAgreement
deriving DecidableEq, Repr

/-- A parsed JSON category object: which fields are present, and their
values. -/
def CatDoc := FieldKey → Option JPrim

/-- Top-level keys a snapshot document can carry: the four category keys
read by the load path, and the wrapper keys written by the JSON export. -/
inductive TopKey where
  | kisp
  | kvoip
  | kbiznet
  | kmobile
  | kinputs
  | ktotals
deriving DecidableEq, Repr

def topOf : CategoryKey → TopKey
  | CategoryKey.isp => TopKey.kisp
  | CategoryKey.voip => TopKey.kvoip
  | CategoryKey.biznet => TopKey.kbiznet
  | CategoryKey.mobile => TopKey.kmobile

/-- A top-level JSON value in a snapshot document. -/
inductive TopVal where
  | catObj (c : CatDoc)
  | stateObj (s : CategoryKey → CatDoc)
  | totalsObj (t : Totals)

/-- A parsed top-level JSON document. -/
def TopDoc := TopKey → Option TopVal

def modeName : Mode → String
  | Mode.flat => "flat"
  | Mode.perUnit => "perUnit"

def ispModeName : IspMode → String
  | IspMode.current => "current"
  | IspMode.new => "new"

/-- JSON.stringify of one CategoryInputs record: every base field is
written; an optional field is written only when it is present
(JSON.stringify drops undefined properties). -/
def encodeCat (c : CategoryInputs) : CatDoc := fun f =>
  match f with
  | FieldKey.fmode => some (JPrim.pstr (modeName c.mode))
  | FieldKey.funits => some (JPrim.pnum c.units)
  | FieldKey.fcurrentMonthly => some (JPrim.pnum c.currentMonthly)
  | FieldKey.fproposedMonthly => some (JPrim.pnum c.proposedMonthly)
  | FieldKey.foneTimeCost => some (JPrim.pnum c.oneTimeCost)
  | FieldKey.ftermMonths => some (JPrim.pnum c.termMonths)
  | FieldKey.fenabled => some (JPrim.pbool c.enabled)
  | FieldKey.fispMode => c.ispMode.map (fun m => JPrim.pstr (ispModeName m))
  | FieldKey.fresellPrice => c.resellPrice.map JPrim.pnum
  | FieldKey.fdoorFeePerUnit => c.doorFeePerUnit.map JPrim.pnum
  | FieldKey.fbulkAgreement => c.bulkAgreement.map JPrim.pbool

/-- JSON.stringify of the whole state record (the persisted snapshot
format, and the value of the export document's "inputs" member). -/
def encodeStateDoc (x : State) : TopDoc := fun t =>
  match t with
  | TopKey.kisp => some (TopVal.catObj (encodeCat x.isp))
  | TopKey.kvoip => some (TopVal.catObj (encodeCat x.voip))
  | TopKey.kbiznet => some (TopVal.catObj (encodeCat x.biznet))
  | TopKey.kmobile => some (TopVal.catObj (encodeCat x.mobile))
  | TopKey.kinputs => none
  | TopKey.ktotals => none

/-- Source: toJSON in part_001 — the export document is
JSON.stringify({ inputs: data, totals }); its top level carries only the
two wrapper keys. -/
def exportDoc (x : State) (t : Totals) : TopDoc := fun tk =>
  match tk with
  | TopKey.kinputs => some (TopVal.stateObj (fun ck => encodeCat (State.get x ck)))
  | TopKey.ktotals => some (TopVal.totalsObj t)
  | _ => none

/-- First-some choice, modelling which object a JS spread takes a
property from (later spread wins, absent keys fall through). -/
def oOr {α : Type} : Option α → Option α → Option α
  | some x, _ => some x
  | none, b => b

theorem oOr_none {α : Type} (o : Option α) : oOr o none = o := by
  cases o <;> rfl

def decodeMode : Option JPrim → Option Mode
  | some (JPrim.pstr s) =>
      if s = "flat" then some Mode.flat
      else if s = "perUnit" then some Mode.perUnit
      else none
  | _ => none

def decodeIspMode : Option JPrim → Option IspMode
  | some (JPrim.pstr s) =>
      if s = "current" then some IspMode.current
      else if s = "new" then some IspMode.new
      else none
  | _ => none

def decodeNum : Option JPrim → Option ℚ
  | some (JPrim.pnum q) => some q
  | _ => none

def decodeBool : Option JPrim → Option Bool
  | some (JPrim.pbool b) => some b
  | _ => none

/-- The per-category field merge { ...ZERO_DEFAULTS[k], ...initial[k] }:
a field present in the parsed category object overrides the default,
everything else keeps the default.  A top-level value that is not a
category object contributes no recognizable fields (unreachable for the
well-formed documents this development considers). -/
def mergeSpread (d : CategoryInputs) (o : Option TopVal) : CategoryInputs :=
  match o with
  | some (TopVal.catObj v) =>
      { mode := (decodeMode (v FieldKey.fmode)).getD d.mode
        units := (decodeNum (v FieldKey.funits)).getD d.units
        currentMonthly := (decodeNum (v FieldKey.fcurrentMonthly)).getD d.currentMonthly
        proposedMonthly := (decodeNum (v FieldKey.fproposedMonthly)).getD d.proposedMonthly
        oneTimeCost := (decodeNum (v FieldKey.foneTimeCost)).getD d.oneTimeCost
        termMonths := (decodeNum (v FieldKey.ftermMonths)).getD d.termMonths
        enabled := (decodeBool (v FieldKey.fenabled)).getD d.enabled
        ispMode := oOr (decodeIspMode (v FieldKey.fispMode)) d.ispMode
        resellPrice := oOr (decodeNum (v FieldKey.fresellPrice)) d.resellPrice
        doorFeePerUnit := oOr (decodeNum (v FieldKey.fdoorFeePerUnit)) d.doorFeePerUnit
        bulkAgreement := oOr (decodeBool (v FieldKey.fbulkAgreement)) d.bulkAgreement }
  | _ => d

/-- Filling a record's absent optional fields from a default record
(what mergeSpread does to an encoded record, stated directly). -/
def fillDefaults (d v : CategoryInputs) : CategoryInputs :=
  { v with
    ispMode := oOr v.ispMode d.ispMode
    resellPrice := oOr v.resellPrice d.resellPrice
    doorFeePerUnit := oOr v.doorFeePerUnit d.doorFeePerUnit
    bulkAgreement := oOr v.bulkAgreement d.bulkAgreement }

/-- Source: the useState initializer of CostSavingsCalculator (part_002
lines 660-683): start from ZERO_DEFAULTS, replace wholesale by the
persisted snapshot when one parses, spread the URL snapshot over it at
the top level, then per category merge over the zero defaults and
normalize. -/
def loadState (persisted urlp : Option TopDoc) : State :=
  let initial1 : TopDoc :=
    match persisted with
    | some doc => doc
    | none => encodeStateDoc zeroState
  let initial2 : TopDoc :=
    match urlp with
    | some u => fun k => oOr (u k) (initial1 k)
    | none => initial1
  { isp := normalizeForComputation CategoryKey.isp
      (mergeSpread (ZERO_DEFAULTS CategoryKey.isp) (initial2 TopKey.kisp))
    voip := normalizeForComputation CategoryKey.voip
      (mergeSpread (ZERO_DEFAULTS CategoryKey.voip) (initial2 TopKey.kvoip))
    biznet := normalizeForComputation CategoryKey.biznet
      (mergeSpread (ZERO_DEFAULTS CategoryKey.biznet) (initial2 TopKey.kbiznet))
    mobile := normalizeForComputation CategoryKey.mobile
      (mergeSpread (ZERO_DEFAULTS CategoryKey.mobile) (initial2 TopKey.kmobile)) }

/-- Normalizing every category of a state. -/
def mapNormalize (x : State) : State :=
  { isp := normalizeForComputation CategoryKey.isp x.isp
    voip := normalizeForComputation CategoryKey.voip x.voip
    biznet := normalizeForComputation CategoryKey.biznet x.biznet
    mobile := normalizeForComputation CategoryKey.mobile x.mobile }

/-- A state whose optional fields cover those set in ZERO_DEFAULTS, so
that the load-time field merge is the identity on it. -/
def complete (x : State) : Prop :=
  x.isp.ispMode.isSome = true ∧ x.isp.resellPrice.isSome = true ∧
  x.isp.doorFeePerUnit.isSome = true ∧ x.biznet.bulkAgreement.isSome = true

/-! ### Helper lemmas -/

/-- Decoding an encoded category record over a default record recovers
the record, with absent optional fields filled from the default. -/
theorem mergeSpread_encodeCat (d v : CategoryInputs) :
    mergeSpread d (some (TopVal.catObj (encodeCat v))) = fillDefaults d v := by
  rcases v with ⟨mo, un, cm, pm, oc, tm, en, im, rp, df, ba⟩
  cases mo <;> rcases im with _ | im <;> rcases rp with _ | rp <;>
    rcases df with _ | df <;> rcases ba with _ | ba <;>
    first
      | rfl
      | (cases im <;> rfl)

/-! ### Claim theorems -/

/-- C4: for every category input, the monthlySavings field of computeKPIs
equals max(0, current - proposed), hence is never negative, and whenever
the proposed monthly total exceeds the current monthly total it is 0. -/
theorem computeKPIs_monthlySavings_floor (i : CategoryInputs) :
    (computeKPIs i).monthlySavings
        = max 0 ((computeKPIs i).current - (computeKPIs i).proposed)
    ∧ 0 ≤ (computeKPIs i).monthlySavings
    ∧ ((computeKPIs i).current < (computeKPIs i).proposed →
        (computeKPIs i).monthlySavings = 0) := by
  refine ⟨rfl, le_max_left 0 _, fun h => ?_⟩
  have hle : (computeKPIs i).current - (computeKPIs i).proposed ≤ 0 :=
    sub_nonpos.mpr h.le
  exact max_eq_left hle

def iW4 : CategoryInputs :=
  ⟨Mode.flat, 0, 100, 150, 0, 0, true, none, none, none, none⟩

/-- C4 witness: at a concrete input with proposed 150 over current 100,
monthlySavings is 0, not negative. -/
theorem computeKPIs_monthlySavings_floor_witness :
    (computeKPIs iW4).monthlySavings = 0 :=
  (computeKPIs_monthlySavings_floor iW4).2.2
    (by norm_num [computeKPIs, computeMonthlyTotals, iW4])

/-- C5: the reduction field of computeKPIs is (current - proposed)/current
when current > 0 and 0 when current = 0, and it is strictly negative
whenever proposed > current > 0 (not floored, unlike monthlySavings). -/
theorem computeKPIs_reduction_policy (i : CategoryInputs) :
    (0 < (computeKPIs i).current →
      (computeKPIs i).reduction
        = ((computeKPIs i).current - (computeKPIs i).proposed) / (computeKPIs i).current)
    ∧ ((computeKPIs i).current = 0 → (computeKPIs i).reduction = 0)
    ∧ (0 < (computeKPIs i).current ∧ (computeKPIs i).current < (computeKPIs i).proposed →
        (computeKPIs i).reduction < 0) := by
  have hred : (computeKPIs i).reduction =
      if 0 < (computeKPIs i).current
      then ((computeKPIs i).current - (computeKPIs i).proposed) / (computeKPIs i).current
      else 0 := rfl
  refine ⟨fun h => ?_, fun h => ?_, fun h => ?_⟩
  · rw [hred, if_pos h]
  · rw [hred, if_neg (by rw [h]; exact lt_irrefl 0)]
  · rw [hred, if_pos h.1]
    exact div_neg_of_neg_of_pos (sub_neg.mpr h.2) h.1

def iW5 : CategoryInputs :=
  ⟨Mode.flat, 0, 200, 300, 0, 0, true, none, none, none, none⟩

/-- C5 witness: with current 200 and proposed 300 the reduction is
strictly negative. -/
theorem computeKPIs_reduction_policy_witness :
    (computeKPIs iW5).reduction < 0 :=
  (computeKPIs_reduction_policy iW5).2.2
    ⟨by norm_num [computeKPIs, computeMonthlyTotals, iW5],
     by norm_num [computeKPIs, computeMonthlyTotals, iW5]⟩

/-- C1: for an input with ispMode "new" and nonzero doorFeePerUnit d and
units u, computeKPIs reports doorBenefit = d * u, adds exactly that on
top of monthlySavings * 12 in annualSavings, and the per-category fee
base term max(0, annualSavings - doorBenefit) subtracts it back out,
leaving monthlySavings * 12. -/
theorem computeKPIs_door_benefit (i : CategoryInputs) (d : ℚ)
    (h1 : i.ispMode = some IspMode.new) (h2 : i.doorFeePerUnit = some d)
    (h3 : d ≠ 0) (h4 : i.units ≠ 0) :
    (computeKPIs i).doorBenefit = d * i.units
    ∧ (computeKPIs i).annualSavings
        = (computeKPIs i).monthlySavings * 12 + (computeKPIs i).doorBenefit
    ∧ feeBaseTerm (computeKPIs i)
        = max 0 ((computeKPIs i).annualSavings - (computeKPIs i).doorBenefit)
    ∧ feeBaseTerm (computeKPIs i) = (computeKPIs i).monthlySavings * 12 := by
  have hd : (computeKPIs i).doorBenefit = d * i.units := by
    show (if i.ispMode = some IspMode.new ∧ i.doorFeePerUnit.getD 0 ≠ 0 ∧ i.units ≠ 0
          then i.doorFeePerUnit.getD 0 * i.units else 0) = d * i.units
    rw [if_pos ⟨h1, by rw [h2]; simpa using h3, h4⟩, h2]
    simp
  have hann : (computeKPIs i).annualSavings
      = (computeKPIs i).monthlySavings * 12 + (computeKPIs i).doorBenefit := rfl
  have hfb : feeBaseTerm (computeKPIs i)
      = max 0 ((computeKPIs i).annualSavings - (computeKPIs i).doorBenefit) := by
    unfold feeBaseTerm
    rw [jsOrZero_eq]
  have hs : 0 ≤ (computeKPIs i).monthlySavings := le_max_left 0 _
  refine ⟨hd, hann, hfb, ?_⟩
  rw [hfb, hann, add_sub_cancel_right]
  exact max_eq_right (mul_nonneg hs (by norm_num))

def iW1 : CategoryInputs :=
  ⟨Mode.perUnit, 5, 65, 32, 0, 0, true, some IspMode.new, some 65, some 200, none⟩

/-- C1 witness: a door fee rate of 200 over 5 units yields doorBenefit
1000. -/
theorem computeKPIs_door_benefit_witness :
    (computeKPIs iW1).doorBenefit = 1000 :=
  ((computeKPIs_door_benefit iW1 200 rfl rfl (by norm_num) (by norm_num [iW1])).1).trans
    (by norm_num [iW1])

/-- C3: normalizeForComputation is idempotent for every category key and
input (and it is a total function by construction). -/
theorem normalizeForComputation_idem (k : CategoryKey) (i : CategoryInputs) :
    normalizeForComputation k (normalizeForComputation k i) = normalizeForComputation k i := by
  cases k
  · by_cases h : i.ispMode = some IspMode.new <;> simp [normalizeForComputation, h]
  · rfl
  · rfl
  · rfl

/-- C6: the voip normalization rule sets proposedMonthly to 0 when usage
is all zero (currentMonthly = 0, and units = 0 as well in per-unit
mode), and to the fixed 30 when usage is nonzero. -/
theorem normalize_voip_usage_gate (i : CategoryInputs) :
    (i.currentMonthly = 0 ∧ (i.mode = Mode.perUnit → i.units = 0) →
      (normalizeForComputation CategoryKey.voip i).proposedMonthly = 0)
    ∧ ((i.mode = Mode.flat ∧ 0 < i.currentMonthly) ∨
        (i.mode = Mode.perUnit ∧ 0 < i.units ∧ 0 < i.currentMonthly) →
      (normalizeForComputation CategoryKey.voip i).proposedMonthly = 30) := by
  constructor
  · rintro ⟨hcm, _⟩
    cases hm : i.mode <;> simp [normalizeForComputation, hm, hcm]
  · rintro (⟨hm, hcm⟩ | ⟨hm, hu, hcm⟩)
    · simp [normalizeForComputation, hm, hcm]
    · simp [normalizeForComputation, hm, hu, hcm]

def iW6 : CategoryInputs :=
  ⟨Mode.perUnit, 0, 0, 30, 0, 0, true, none, none, none, none⟩

/-- C6 witness: an unused per-unit voip category normalizes to proposed
0, not the fixed constant 30. -/
theorem normalize_voip_usage_gate_witness :
    (normalizeForComputation CategoryKey.voip iW6).proposedMonthly = 0 :=
  (normalize_voip_usage_gate iW6).1 ⟨by norm_num [iW6], by norm_num [iW6]⟩

theorem toFixed1_zero : toFixed1 0 = "0.0" := by
  have hq : ((0 : ℚ) * 10 + 1 / 2) = 1 / 2 := by norm_num
  have h0 : ⌊(1 : ℚ) / 2⌋ = 0 := by
    apply Int.floor_eq_zero_iff.mpr
    rw [Set.mem_Ico]
    norm_num
  unfold toFixed1
  rw [hq, h0]
  rfl

/-- C10: pct clamps its argument into [0, 1] before formatting, so any
negative computed reduction is displayed as "0.0%". -/
theorem pct_clamps_negative_reduction (i : CategoryInputs)
    (h : (computeKPIs i).reduction < 0) :
    pct ((computeKPIs i).reduction) = "0.0%" := by
  unfold pct
  rw [jsOrZero_eq, min_eq_right (le_of_lt (lt_trans h one_pos)),
    max_eq_left (le_of_lt h), zero_mul, toFixed1_zero]
  rfl

def iW10 : CategoryInputs :=
  ⟨Mode.flat, 0, 100, 150, 0, 0, true, none, none, none, none⟩

/-- C10 witness: the negative reduction at current 100, proposed 150 is
displayed as "0.0%". -/
theorem pct_clamps_negative_reduction_witness :
    pct ((computeKPIs iW10).reduction) = "0.0%" :=
  pct_clamps_negative_reduction iW10
    (by norm_num [computeKPIs, computeMonthlyTotals, iW10])

/-- A state with two enabled categories (voip and mobile) carrying
different savings, used to separate the two scope settings. -/
def stC2 : State :=
  { isp := ⟨Mode.perUnit, 0, 0, 32, 5000, 0, false, some IspMode.current, some 65, some 200, none⟩
    voip := ⟨Mode.flat, 10, 600, 30, 0, 0, true, none, none, none, none⟩
    biznet := ⟨Mode.flat, 0, 0, 120, 0, 0, false, none, none, none, some false⟩
    mobile := ⟨Mode.perUnit, 40, 45, 28, 0, 24, true, none, none, none, none⟩ }

/-- C2 counterexample: with voip (annual 6840) and mobile (annual 8160)
enabled and voip active, the fee is 4500 under scope "all" but 2052
under scope "selected" — the fee pass is not scope-independent. -/
theorem coCom_scope_counterexample :
    (coCom stC2 Scope.all CategoryKey.voip).fee
      ≠ (coCom stC2 Scope.selected CategoryKey.voip).fee := by
  have hka : scopedKeys stC2 Scope.all CategoryKey.voip
      = [CategoryKey.voip, CategoryKey.mobile] := by decide
  have hks : scopedKeys stC2 Scope.selected CategoryKey.voip = [CategoryKey.voip] := by
    decide
  have hv : feeBaseTerm (computeKPIs
      (normalizeForComputation CategoryKey.voip (stC2.get CategoryKey.voip))) = 6840 := by
    simp [feeBaseTerm, computeKPIs, computeMonthlyTotals, normalizeForComputation,
      jsOrZero, State.get, stC2]
    norm_num
  have hm : feeBaseTerm (computeKPIs
      (normalizeForComputation CategoryKey.mobile (stC2.get CategoryKey.mobile))) = 8160 := by
    simp [feeBaseTerm, computeKPIs, computeMonthlyTotals, normalizeForComputation,
      jsOrZero, State.get, stC2]
    norm_num
  have h1 : (coCom stC2 Scope.all CategoryKey.voip).fee
      = feeRate * ((scopedKeys stC2 Scope.all CategoryKey.voip).map
          (fun k => feeBaseTerm (computeKPIs (normalizeForComputation k (stC2.get k))))).sum
        + (if stC2.isp.enabled then (5000 : ℚ) else 0) := rfl
  have h2 : (coCom stC2 Scope.selected CategoryKey.voip).fee
      = feeRate * ((scopedKeys stC2 Scope.selected CategoryKey.voip).map
          (fun k => feeBaseTerm (computeKPIs (normalizeForComputation k (stC2.get k))))).sum
        + (if stC2.isp.enabled then (5000 : ℚ) else 0) := rfl
  rw [h1, h2, hka, hks]
  simp [hv, hm]
  norm_num [feeRate, State.get, stC2]

/-- C2 (amended): the fee pass filters by the same enabled-plus-scope
selection as the totals pass, so fee and net depend on the scope toggle;
under scope "all" the whole fee/net record is independent of which
category is active. -/
theorem coCom_scope_all_active_independent (st : State) (a b : CategoryKey) :
    coCom st Scope.all a = coCom st Scope.all b := rfl

/-- C7 counterexample: the part_002 entry handler maps the unparsable
entry "x" to NaN (Math.max(0, NaN) = NaN), not to 0 — a non-finite
value reaches the state. -/
theorem numberField_nan_counterexample :
    numberFieldOnChange "x" = JsVal.nan ∧ numberFieldOnChange "x" ≠ JsVal.num 0 := by
  have h : numberFieldOnChange "x" = JsVal.nan := by
    simp [numberFieldOnChange, jsParseFloat, parseCore, jsMax]
  exact ⟨h, by rw [h]; exact fun hc => JsVal.noConfusion hc⟩

/-- C7 (amended): the part_002 handler never produces a negative number
— every entry yields NaN (when a nonempty entry fails to parse) or a
clamped value ≥ 0, and the empty entry is coerced to 0 — but a parse
failure yields NaN, not 0; the NumberField variant in
CostSavingsCalculator.tsx applies no clamp at all and stores -5 for the
entry "-5". -/
theorem numberField_handler_behavior :
    (∀ s : String, numberFieldOnChange s = JsVal.nan ∨
      ∃ q : ℚ, numberFieldOnChange s = JsVal.num q ∧ 0 ≤ q)
    ∧ numberFieldOnChange "" = JsVal.num 0
    ∧ numberFieldOnChangeTsx "-5" = JsVal.num (-5) := by
  refine ⟨fun s => ?_, ?_, ?_⟩
  · rcases h : parseCore ((if s = "" then "0" else s).data) with _ | q
    · exact Or.inl (by simp [numberFieldOnChange, jsParseFloat, h, jsMax])
    · exact Or.inr ⟨max 0 q,
        by simp [numberFieldOnChange, jsParseFloat, h, jsMax], le_max_left 0 q⟩
  · simp [numberFieldOnChange, jsParseFloat, parseCore, jsMax, digitsVal, fracVal]
  · simp [numberFieldOnChangeTsx, jsParseFloat, parseCore, digitsVal, fracVal]

/-- C8: load-time precedence.  With both a persisted and a URL snapshot
present, a category key carried by the URL snapshot takes the URL value,
a key absent from the URL snapshot retains the persisted value, and a
key absent from both falls back to the zero defaults; in every case the
winning record is merged over the zero defaults (defaults are the lowest
layer) and then passed through normalizeForComputation. -/
theorem load_merge_precedence (p u : TopDoc) (k : CategoryKey) (v w : CategoryInputs) :
    (u (topOf k) = some (TopVal.catObj (encodeCat v)) →
      (loadState (some p) (some u)).get k
        = normalizeForComputation k (fillDefaults (ZERO_DEFAULTS k) v))
    ∧ (u (topOf k) = none → p (topOf k) = some (TopVal.catObj (encodeCat w)) →
      (loadState (some p) (some u)).get k
        = normalizeForComputation k (fillDefaults (ZERO_DEFAULTS k) w))
    ∧ (u (topOf k) = none → p (topOf k) = none →
      (loadState (some p) (some u)).get k
        = normalizeForComputation k (ZERO_DEFAULTS k)) := by
  refine ⟨fun hu => ?_, fun hu hp => ?_, fun hu hp => ?_⟩
  · cases k <;>
      (simp only [topOf] at hu
       simp [loadState, State.get, oOr, hu, mergeSpread_encodeCat])
  · cases k <;>
      (simp only [topOf] at hu hp
       simp [loadState, State.get, oOr, hu, hp, mergeSpread_encodeCat])
  · cases k <;>
      (simp only [topOf] at hu hp
       simp [loadState, State.get, oOr, hu, hp, mergeSpread])

def vW8 : CategoryInputs :=
  ⟨Mode.flat, 3, 400, 10, 0, 0, true, none, none, none, none⟩

def uW8 : TopDoc := fun t =>
  match t with
  | TopKey.kvoip => some (TopVal.catObj (encodeCat vW8))
  | _ => none

def pW8 : TopDoc := fun _ => none

/-- C8 witness: a URL snapshot carrying only the voip key overrides the
(empty) persisted snapshot for voip, merged over defaults and
normalized. -/
theorem load_merge_precedence_witness :
    (loadState (some pW8) (some uW8)).get CategoryKey.voip
      = normalizeForComputation CategoryKey.voip
          (fillDefaults (ZERO_DEFAULTS CategoryKey.voip) vW8) :=
  (load_merge_precedence pW8 uW8 CategoryKey.voip vW8 vW8).1 rfl

theorem fillDefaults_isp (c : CategoryInputs) (h1 : c.ispMode.isSome = true)
    (h2 : c.resellPrice.isSome = true) (h3 : c.doorFeePerUnit.isSome = true) :
    fillDefaults (ZERO_DEFAULTS CategoryKey.isp) c = c := by
  rcases c with ⟨mo, un, cm, pm, oc, tm, en, im, rp, df, ba⟩
  rcases im with _ | im
  · simp at h1
  rcases rp with _ | rp
  · simp at h2
  rcases df with _ | df
  · simp at h3
  rcases ba with _ | ba <;> rfl

theorem fillDefaults_voip (c : CategoryInputs) :
    fillDefaults (ZERO_DEFAULTS CategoryKey.voip) c = c := by
  rcases c with ⟨mo, un, cm, pm, oc, tm, en, im, rp, df, ba⟩
  rcases im with _ | im <;> rcases rp with _ | rp <;> rcases df with _ | df <;>
    rcases ba with _ | ba <;> rfl

theorem fillDefaults_biznet (c : CategoryInputs) (h4 : c.bulkAgreement.isSome = true) :
    fillDefaults (ZERO_DEFAULTS CategoryKey.biznet) c = c := by
  rcases c with ⟨mo, un, cm, pm, oc, tm, en, im, rp, df, ba⟩
  rcases ba with _ | ba
  · simp at h4
  rcases im with _ | im <;> rcases rp with _ | rp <;> rcases df with _ | df <;> rfl

theorem fillDefaults_mobile (c : CategoryInputs) :
    fillDefaults (ZERO_DEFAULTS CategoryKey.mobile) c = c := by
  rcases c with ⟨mo, un, cm, pm, oc, tm, en, im, rp, df, ba⟩
  rcases im with _ | im <;> rcases rp with _ | rp <;> rcases df with _ | df <;>
    rcases ba with _ | ba <;> rfl

/-- The totals value serialized into the demo export document. -/
def tDemo : Totals := totals demoState Scope.all CategoryKey.isp

/-- C9 counterexample: the export document wraps the state under the
"inputs" key, so feeding the exported document itself to the load path
does not reproduce the normalization of the original state (the loader
finds no category keys at the top level and falls back to defaults). -/
theorem export_roundtrip_counterexample :
    loadState (some (exportDoc demoState tDemo)) none ≠ mapNormalize demoState := by
  have hL : (loadState (some (exportDoc demoState tDemo)) none).voip.currentMonthly = 0 := rfl
  have hR : (mapNormalize demoState).voip.currentMonthly = 600 := rfl
  intro h
  rw [h, hR] at hL
  exact absurd hL (by norm_num)

/-- C9 (amended): the round trip holds for the "inputs" member of the
export (equivalently, for the persisted-snapshot serialization of the
state): for every state whose optional fields cover the defaults,
re-loading JSON.stringify(state) through the load path yields exactly
the normalization of that state. -/
theorem persisted_roundtrip (x : State) (h : complete x) :
    loadState (some (encodeStateDoc x)) none = mapNormalize x := by
  obtain ⟨h1, h2, h3, h4⟩ := h
  simp only [loadState, encodeStateDoc, mapNormalize, mergeSpread_encodeCat,
    fillDefaults_isp x.isp h1 h2 h3, fillDefaults_voip, fillDefaults_biznet x.biznet h4,
    fillDefaults_mobile]

/-- C9 witness: the demo state round-trips through serialization and the
load path. -/
theorem persisted_roundtrip_witness :
    loadState (some (encodeStateDoc demoState)) none = mapNormalize demoState :=
  persisted_roundtrip demoState ⟨rfl, rfl, rfl, rfl⟩

end CocomCalc
